import Mathlib

/-!
Shallow embedding of the persistence gateway and report assembler of the
KEN mood-survey application (source file `api.ts`, functions
`fetchWithTimeout`, `createUser`, `submitResponse`, `fetchAllResponses`,
`clearLocalData`), together with proofs of the specification's claims.

Modelling conventions:
* `localStorage` is a map from string keys to stored values.  The code only
  ever stores JSON-encoded arrays; a stored string is abstracted as either a
  decoded users collection, a decoded responses collection, or `corrupt`
  (a string on which `JSON.parse` of the expected collection shape throws).
* The outcome of one remote HTTP attempt (after `fetchWithTimeout`) is a
  parameter of type `RemoteOutcome`: a 2xx response with parsed body, a
  non-2xx response (`res.ok` false), a network error thrown by `fetch`, or a
  timeout abort raised by the `AbortController` of `fetchWithTimeout`.
* Each reading of the wall clock (`Date.now()`, `new Date().toISOString()`)
  is an explicit parameter, passed in source-evaluation order.
* A JavaScript exception propagating out of the function is `Except.error ()`.
* `new Date(s).getTime()` (a host built-in, not part of the repository) is
  an abstract parameter `getTime : String → Int`.
-/

namespace KenModel

/-- `User` record of `types.ts` / the `users` table: the UserProfile of the
spec's data model. -/
structure User where
  id : Int
  name : String
  avatar : String
  grade : String
  gender : String
deriving DecidableEq, Repr

/-- A locally synthesized response record, as pushed in the fallback branch of
`submitResponse`: the ResponseRecord of the spec's data model. -/
structure ResponseRecord where
  id : Int
  user_id : Int
  question_id : Int
  score : Int
  timestamp : String
deriving DecidableEq, Repr

/-- Row shape produced by the local join in `fetchAllResponses` (and by the
server's SQL join): the JoinedReportRow of the spec's data model. -/
structure JoinedRow where
  user_id : Int
  user_name : String
  user_avatar : String
  user_grade : String
  user_gender : String
  question_id : Int
  score : Int
  timestamp : String
deriving DecidableEq, Repr

/-- Acknowledgement shape `\x7b id, status \x7d` returned by `submitResponse`. -/
structure Ack where
  id : Int
  status : String
deriving DecidableEq, Repr

/-- Abstraction of one JSON string held in `localStorage`: the decoded
collection when it decodes to the expected array shape, `corrupt` when
`JSON.parse` would throw on it. -/
inductive StoredVal where
  | usersVal (us : List User)
  | responsesVal (rs : List ResponseRecord)
  | corrupt
deriving DecidableEq

/-- `localStorage`: a partial map from keys to stored strings. -/
def Store : Type := String → Option StoredVal

/-- `localStorage.setItem`. -/
def Store.setItem (st : Store) (k : String) (v : StoredVal) : Store :=
  fun k2 => if k2 = k then some v else st k2

/-- `localStorage.removeItem` (removing an absent key is a no-op). -/
def Store.removeItem (st : Store) (k : String) : Store :=
  fun k2 => if k2 = k then none else st k2

/-- A `localStorage` with no keys set. -/
def emptyStore : Store := fun _ => none

/-- `JSON.parse(localStorage.getItem('sel_users') || '[]')`: an absent key
reads as the empty collection, a corrupt (or wrong-shape) value throws. -/
def parseUsers (st : Store) : Except Unit (List User) :=
  match st "sel_users" with
  | none => .ok []
  | some (.usersVal us) => .ok us
  | some _ => .error ()

/-- `JSON.parse(localStorage.getItem('sel_responses') || '[]')`. -/
def parseResponses (st : Store) : Except Unit (List ResponseRecord) :=
  match st "sel_responses" with
  | none => .ok []
  | some (.responsesVal rs) => .ok rs
  | some _ => .error ()

/-- Observable outcome of one remote attempt made through `fetchWithTimeout`:
a 2xx response with parsed body `b`, a non-2xx response (`res.ok` false), a
network error thrown by `fetch`, or the abort fired by the timeout. -/
inductive RemoteOutcome (α : Type) where
  | ok (b : α)
  | httpError
  | netError
  | timedOut
deriving DecidableEq, Repr

/-- Default timeout of `fetchWithTimeout` (1000 ms), used when a call site
passes no explicit bound. -/
def fetchWithTimeoutDefaultMs : Nat := 1000

/-- Timeout passed to `fetchWithTimeout` at the `createUser` call site. -/
def createUserTimeoutMs : Nat := 1500

/-- Timeout passed to `fetchWithTimeout` at the `submitResponse` call site. -/
def submitResponseTimeoutMs : Nat := 800

/-- Timeout passed to `fetchWithTimeout` at the `fetchAllResponses` call
site. -/
def fetchAllResponsesTimeoutMs : Nat := 2000

/-- `createUser` (the spec's `createProfile`).  On a 2xx outcome it returns
the server body verbatim and touches no storage.  A non-2xx response throws
inside the `try` and every thrown error lands in the same `catch`: read the
local users collection, synthesize a user with `id = Date.now()` (parameter
`now`), append, persist under `sel_users`, and return it.  A corrupt stored
collection makes `JSON.parse` throw inside the `catch`, which propagates. -/
def createUser (name avatar grade gender : String) (remote : RemoteOutcome User)
    (now : Int) (st : Store) : Except Unit (User × Store) :=
  match remote with
  | .ok u => .ok (u, st)
  | _ =>
    match parseUsers st with
    | .error e => .error e
    | .ok users =>
      let newUser : User := { id := now, name := name, avatar := avatar,
                              grade := grade, gender := gender }
      .ok (newUser, st.setItem "sel_users" (.usersVal (users ++ [newUser])))

/-- `submitResponse`.  On a 2xx outcome it returns the server acknowledgement
verbatim.  Otherwise: read the local responses collection, push a record with
`id = Date.now()` (first clock reading `t1`) and
`timestamp = new Date().toISOString()` (reading `ts`), persist under
`sel_responses`, and return `\x7b id: Date.now(), status: 'saved_local' \x7d`
with a second `Date.now()` reading `t2`. -/
def submitResponse (userId questionId score : Int) (remote : RemoteOutcome Ack)
    (t1 : Int) (ts : String) (t2 : Int) (st : Store) : Except Unit (Ack × Store) :=
  match remote with
  | .ok a => .ok (a, st)
  | _ =>
    match parseResponses st with
    | .error e => .error e
    | .ok responses =>
      let newRecord : ResponseRecord :=
        { id := t1, user_id := userId, question_id := questionId,
          score := score, timestamp := ts }
      .ok ({ id := t2, status := "saved_local" },
           st.setItem "sel_responses" (.responsesVal (responses ++ [newRecord])))

/-- One step of the simulated SQL join of `fetchAllResponses`:
`users.find(u => u.id === r.user_id)`, projecting actual profile fields when
found and the placeholder row otherwise.  The placeholder name and avatar are
the literal strings of the source. -/
def joinRow (users : List User) (r : ResponseRecord) : JoinedRow :=
  match users.find? (fun u => u.id == r.user_id) with
  | some u =>
    { user_id := u.id, user_name := u.name, user_avatar := u.avatar,
      user_grade := u.grade, user_gender := u.gender,
      question_id := r.question_id, score := r.score, timestamp := r.timestamp }
  | none =>
    { user_id := -1, user_name := "Unknown (Local)", user_avatar := "ðŸ™‚",
      user_grade := "", user_gender := "",
      question_id := r.question_id, score := r.score, timestamp := r.timestamp }

/-- Order used by `joined.sort((a, b) => new Date(b.timestamp).getTime() -
new Date(a.timestamp).getTime())`: row `a` may precede row `b` when `a`'s
parsed timestamp is at least `b`'s (descending). -/
def rowLE (getTime : String → Int) (a b : JoinedRow) : Prop :=
  getTime b.timestamp ≤ getTime a.timestamp

instance (getTime : String → Int) : DecidableRel (rowLE getTime) :=
  fun a b => Int.decLe (getTime b.timestamp) (getTime a.timestamp)

instance (getTime : String → Int) : IsTotal JoinedRow (rowLE getTime) :=
  ⟨fun a b => (le_total (getTime b.timestamp) (getTime a.timestamp)).imp id id⟩

instance (getTime : String → Int) : IsTrans JoinedRow (rowLE getTime) :=
  ⟨fun _ _ _ h1 h2 => le_trans h2 h1⟩

/-- The in-place `Array.prototype.sort` of the join output, modelled as a
sort producing a permutation ordered by `rowLE` (tie order is explicitly
unspecified by the spec, so any such sort is a faithful model). -/
def sortRows (getTime : String → Int) (l : List JoinedRow) : List JoinedRow :=
  List.insertionSort (rowLE getTime) l

/-- The Report Assembler: join every locally stored response with its user,
then sort by parsed timestamp descending (lines 90-106 of the source). -/
def assembleReport (getTime : String → Int) (users : List User)
    (responses : List ResponseRecord) : List JoinedRow :=
  sortRows getTime (responses.map (joinRow users))

/-- Result shape of `fetchAllResponses`: `\x7b source, data \x7d`. -/
structure FetchResult where
  source : String
  data : List JoinedRow
deriving DecidableEq, Repr

/-- `fetchAllResponses`.  On a 2xx outcome it returns the server rows tagged
`source = 'DB'`.  On any failure it runs the Report Assembler over the local
collections and tags the result `source = 'LOCAL'`; it performs no write. -/
def fetchAllResponses (remote : RemoteOutcome (List JoinedRow))
    (getTime : String → Int) (st : Store) : Except Unit (FetchResult × Store) :=
  match remote with
  | .ok rows => .ok ({ source := "DB", data := rows }, st)
  | _ =>
    match parseUsers st with
    | .error e => .error e
    | .ok users =>
      match parseResponses st with
      | .error e => .error e
      | .ok responses =>
        .ok ({ source := "LOCAL",
               data := assembleReport getTime users responses }, st)

/-- `clearLocalData`: remove both collections.  A pure total function on
stores — it cannot fail. -/
def clearLocalData (st : Store) : Store :=
  (st.removeItem "sel_users").removeItem "sel_responses"

/-! ### Helper lemmas -/

theorem parseUsers_setItem_users (st : Store) (us : List User) :
    parseUsers (st.setItem "sel_users" (StoredVal.usersVal us)) = .ok us := by
  simp [parseUsers, Store.setItem]

theorem parseResponses_setItem_responses (st : Store) (rs : List ResponseRecord) :
    parseResponses (st.setItem "sel_responses" (StoredVal.responsesVal rs)) = .ok rs := by
  simp [parseResponses, Store.setItem]

/-- The fallback branch of `createUser`, reached on every non-2xx outcome,
computed in closed form when the stored users collection is well-formed. -/
theorem createUser_fallback (name avatar grade gender : String)
    (remote : RemoteOutcome User) (now : Int) (st : Store) (us : List User)
    (hus : parseUsers st = .ok us) (hfail : ∀ u, remote ≠ RemoteOutcome.ok u) :
    createUser name avatar grade gender remote now st =
      .ok ({ id := now, name := name, avatar := avatar, grade := grade, gender := gender },
           st.setItem "sel_users" (.usersVal (us ++
             [{ id := now, name := name, avatar := avatar, grade := grade, gender := gender }]))) := by
  cases remote with
  | ok u => exact absurd rfl (hfail u)
  | httpError => simp [createUser, hus]
  | netError => simp [createUser, hus]
  | timedOut => simp [createUser, hus]

/-! ### Claims -/

/-- C1, counterexample to the claim as stated: for a response whose `user_id`
matches no stored profile, the assembled row's `user_name` is not
`"Unknown"` (the code uses the label `"Unknown (Local)"`). -/
theorem join_unknown_name_counterexample :
    (joinRow [] { id := 1, user_id := 999, question_id := 5, score := 3,
                  timestamp := "T" }).user_name ≠ "Unknown" := by
  decide

/-- C1 (amended): for every locally stored ResponseRecord, the assembled row
uses the matching UserProfile's actual display fields when a profile with id
equal to the record's `user_id` exists (in particular `user_name` is that
profile's name), and when no matching profile exists the row has
`user_id = -1`, `user_name = "Unknown (Local)"`, blank grade and gender, and
the default avatar glyph. -/
theorem report_join_correct (users : List User) (r : ResponseRecord) :
    (∀ u, u ∈ users → u.id = r.user_id →
      (∀ v, v ∈ users → v.id = r.user_id → v = u) →
      joinRow users r =
        { user_id := u.id, user_name := u.name, user_avatar := u.avatar,
          user_grade := u.grade, user_gender := u.gender,
          question_id := r.question_id, score := r.score, timestamp := r.timestamp }) ∧
    ((∀ v, v ∈ users → v.id ≠ r.user_id) →
      joinRow users r =
        { user_id := -1, user_name := "Unknown (Local)", user_avatar := "ðŸ™‚",
          user_grade := "", user_gender := "",
          question_id := r.question_id, score := r.score, timestamp := r.timestamp }) := by
  constructor
  · intro u hu hid huniq
    cases hfind : users.find? (fun v => v.id == r.user_id) with
    | none =>
      exact absurd (by simpa using hid) (List.find?_eq_none.mp hfind u hu)
    | some w =>
      have hw : w ∈ users := List.mem_of_find?_eq_some hfind
      have hwid : w.id = r.user_id := by simpa using List.find?_some hfind
      have hwu : w = u := huniq w hw hwid
      subst hwu
      simp [joinRow, hfind]
  · intro hnone
    have hfind : users.find? (fun v => v.id == r.user_id) = none := by
      rw [List.find?_eq_none]
      intro v hv
      simpa using hnone v hv
    simp [joinRow, hfind]

/-- Witness for C1: both branches of `report_join_correct` evaluated on the
spec's own example inputs. -/
theorem report_join_correct_witness :
    joinRow [{ id := 1, name := "A", avatar := "a", grade := "g", gender := "x" }]
        { id := 7, user_id := 1, question_id := 5, score := 3, timestamp := "T" } =
      { user_id := 1, user_name := "A", user_avatar := "a", user_grade := "g",
        user_gender := "x", question_id := 5, score := 3, timestamp := "T" } ∧
    joinRow [] { id := 1, user_id := 999, question_id := 5, score := 3, timestamp := "T" } =
      { user_id := -1, user_name := "Unknown (Local)", user_avatar := "ðŸ™‚",
        user_grade := "", user_gender := "", question_id := 5, score := 3,
        timestamp := "T" } :=
  ⟨(report_join_correct _ _).1
      { id := 1, name := "A", avatar := "a", grade := "g", gender := "x" }
      (by simp) rfl (by intro v hv _h; simpa using hv),
   (report_join_correct _ _).2 (by intro v hv; simp at hv)⟩

/-- C2, counterexample to the claim as stated: with the remote failing and a
corrupt string stored under `sel_users`, `JSON.parse` throws inside the
`catch` block of `createUser` and the exception propagates to the caller. -/
theorem createUser_corrupt_throws_counterexample :
    createUser "n" "a" "g" "x" RemoteOutcome.netError 0
      (fun k => if k = "sel_users" then some StoredVal.corrupt else none) =
      Except.error () := rfl

/-- C2 (amended): for every input, every remote outcome, and every local
storage whose `sel_users` entry is absent or a well-formed users collection,
`createUser` returns a UserProfile (with its `id` field, like every field of
the returned record, defined) rather than throwing. -/
theorem createUser_total_on_wellformed (name avatar grade gender : String)
    (remote : RemoteOutcome User) (now : Int) (st : Store)
    (hwf : st "sel_users" = none ∨ ∃ us, st "sel_users" = some (StoredVal.usersVal us)) :
    ∃ u st2, createUser name avatar grade gender remote now st = .ok (u, st2) := by
  have hparse : ∃ us, parseUsers st = .ok us := by
    rcases hwf with h | ⟨us, h⟩
    · exact ⟨[], by simp [parseUsers, h]⟩
    · exact ⟨us, by simp [parseUsers, h]⟩
  rcases hparse with ⟨us, hus⟩
  cases remote with
  | ok u => exact ⟨u, st, rfl⟩
  | httpError =>
    exact ⟨_, _, createUser_fallback _ _ _ _ _ now st us hus
      (fun _ h => RemoteOutcome.noConfusion h)⟩
  | netError =>
    exact ⟨_, _, createUser_fallback _ _ _ _ _ now st us hus
      (fun _ h => RemoteOutcome.noConfusion h)⟩
  | timedOut =>
    exact ⟨_, _, createUser_fallback _ _ _ _ _ now st us hus
      (fun _ h => RemoteOutcome.noConfusion h)⟩

/-- Witness for C2: a concrete call with the remote unreachable and empty
local storage returns successfully. -/
theorem createUser_total_on_wellformed_witness :
    ∃ u st2, createUser "n" "a" "g" "x" RemoteOutcome.netError 0 emptyStore =
      .ok (u, st2) :=
  createUser_total_on_wellformed "n" "a" "g" "x" RemoteOutcome.netError 0 emptyStore
    (Or.inl rfl)

/-- C3: whenever the remote create fails (non-2xx, network error, or
timeout), the returned UserProfile's id is the current epoch-millisecond
clock reading, the profile is appended to the local users collection and
persisted, and that same profile is retrievable afterward from local
storage. -/
theorem createUser_fallback_persists (name avatar grade gender : String)
    (remote : RemoteOutcome User) (now : Int) (st : Store) (us : List User)
    (hus : parseUsers st = .ok us) (hfail : ∀ u, remote ≠ RemoteOutcome.ok u) :
    ∃ u2 st2, createUser name avatar grade gender remote now st = .ok (u2, st2) ∧
      u2.id = now ∧ parseUsers st2 = .ok (us ++ [u2]) ∧ u2 ∈ us ++ [u2] := by
  refine ⟨_, _, createUser_fallback name avatar grade gender remote now st us hus hfail,
    rfl, parseUsers_setItem_users st _, List.mem_append_right _ (List.mem_singleton_self _)⟩

/-- Witness for C3: a concrete timed-out call against empty storage persists
and returns the locally synthesized profile with id 42. -/
theorem createUser_fallback_persists_witness :
    ∃ u2 st2, createUser "n" "a" "g" "x" RemoteOutcome.timedOut 42 emptyStore =
        .ok (u2, st2) ∧
      u2.id = 42 ∧ parseUsers st2 = .ok ([] ++ [u2]) ∧ u2 ∈ [] ++ [u2] :=
  createUser_fallback_persists "n" "a" "g" "x" RemoteOutcome.timedOut 42 emptyStore []
    rfl (fun _ h => RemoteOutcome.noConfusion h)

/-- The fallback branch of `submitResponse`, reached on every non-2xx
outcome, computed in closed form when the stored responses collection is
well-formed. -/
theorem submitResponse_fallback (userId questionId score : Int)
    (remote : RemoteOutcome Ack) (t1 : Int) (ts : String) (t2 : Int) (st : Store)
    (rs : List ResponseRecord) (hrs : parseResponses st = .ok rs)
    (hfail : ∀ a, remote ≠ RemoteOutcome.ok a) :
    submitResponse userId questionId score remote t1 ts t2 st =
      .ok ({ id := t2, status := "saved_local" },
           st.setItem "sel_responses" (.responsesVal (rs ++
             [{ id := t1, user_id := userId, question_id := questionId,
                score := score, timestamp := ts }]))) := by
  cases remote with
  | ok a => exact absurd rfl (hfail a)
  | httpError => simp [submitResponse, hrs]
  | netError => simp [submitResponse, hrs]
  | timedOut => simp [submitResponse, hrs]

/-- The fallback branch of `fetchAllResponses` in closed form: the Report
Assembler output tagged LOCAL, with storage untouched. -/
theorem fetchAllResponses_fallback (remote : RemoteOutcome (List JoinedRow))
    (getTime : String → Int) (st : Store) (us : List User)
    (rs : List ResponseRecord) (hus : parseUsers st = .ok us)
    (hrs : parseResponses st = .ok rs)
    (hfail : ∀ rows, remote ≠ RemoteOutcome.ok rows) :
    fetchAllResponses remote getTime st =
      .ok ({ source := "LOCAL", data := assembleReport getTime us rs }, st) := by
  cases remote with
  | ok rows => exact absurd rfl (hfail rows)
  | httpError => simp [fetchAllResponses, hus, hrs]
  | netError => simp [fetchAllResponses, hus, hrs]
  | timedOut => simp [fetchAllResponses, hus, hrs]

/-- C4: for every `submitResponse` call made while the remote is unavailable
(any non-2xx outcome), after the call resolves a ResponseRecord whose
`user_id`, `question_id` and `score` equal the call's inputs is present in
the local responses collection, and the returned acknowledgement's status is
`"saved_local"`. -/
theorem submitResponse_fallback_persists (userId questionId score : Int)
    (remote : RemoteOutcome Ack) (t1 : Int) (ts : String) (t2 : Int) (st : Store)
    (rs : List ResponseRecord) (hrs : parseResponses st = .ok rs)
    (hfail : ∀ a, remote ≠ RemoteOutcome.ok a) :
    ∃ ack st2, submitResponse userId questionId score remote t1 ts t2 st = .ok (ack, st2) ∧
      ack.status = "saved_local" ∧
      ∃ rs2, parseResponses st2 = .ok rs2 ∧
        ∃ r2 ∈ rs2, r2.user_id = userId ∧ r2.question_id = questionId ∧
          r2.score = score := by
  refine ⟨_, _,
    submitResponse_fallback userId questionId score remote t1 ts t2 st rs hrs hfail,
    rfl, _, parseResponses_setItem_responses st _,
    ⟨{ id := t1, user_id := userId, question_id := questionId, score := score,
       timestamp := ts },
     List.mem_append_right _ (List.mem_singleton_self _), rfl, rfl, rfl⟩⟩

/-- Witness for C4: a concrete call with the remote unreachable and empty
local storage persists a matching record and acknowledges `saved_local`. -/
theorem submitResponse_fallback_persists_witness :
    ∃ ack st2, submitResponse 1 2 3 RemoteOutcome.netError 10 "T" 11 emptyStore =
        .ok (ack, st2) ∧
      ack.status = "saved_local" ∧
      ∃ rs2, parseResponses st2 = .ok rs2 ∧
        ∃ r2 ∈ rs2, r2.user_id = 1 ∧ r2.question_id = 2 ∧ r2.score = 3 :=
  submitResponse_fallback_persists 1 2 3 RemoteOutcome.netError 10 "T" 11 emptyStore []
    rfl (fun _ h => RemoteOutcome.noConfusion h)

/-- C5: in degraded mode (remote call failed), `fetchAllResponses` returns
`source = "LOCAL"` and a data sequence whose length equals the number of
locally stored ResponseRecords, for every pair of local collections. -/
theorem fetchAllResponses_degraded_length (remote : RemoteOutcome (List JoinedRow))
    (getTime : String → Int) (st : Store) (us : List User)
    (rs : List ResponseRecord) (hus : parseUsers st = .ok us)
    (hrs : parseResponses st = .ok rs)
    (hfail : ∀ rows, remote ≠ RemoteOutcome.ok rows) :
    ∃ res st2, fetchAllResponses remote getTime st = .ok (res, st2) ∧
      res.source = "LOCAL" ∧ res.data.length = rs.length := by
  refine ⟨_, _, fetchAllResponses_fallback remote getTime st us rs hus hrs hfail,
    rfl, ?_⟩
  show (assembleReport getTime us rs).length = rs.length
  unfold assembleReport sortRows
  rw [(List.perm_insertionSort _ _).length_eq, List.length_map]

/-- Witness for C5: with one locally stored response and the remote
unreachable, the degraded result is tagged LOCAL and has one row. -/
theorem fetchAllResponses_degraded_length_witness :
    ∃ res st2,
      fetchAllResponses RemoteOutcome.netError (fun _ => 0)
          (Store.setItem emptyStore "sel_responses"
            (StoredVal.responsesVal
              [{ id := 1, user_id := 1, question_id := 1, score := 1,
                 timestamp := "T" }])) = .ok (res, st2) ∧
      res.source = "LOCAL" ∧
      res.data.length =
        [{ id := 1, user_id := 1, question_id := 1, score := 1,
           timestamp := "T" : ResponseRecord }].length :=
  fetchAllResponses_degraded_length RemoteOutcome.netError (fun _ => 0) _ [] _
    rfl rfl (fun _ h => RemoteOutcome.noConfusion h)

/-- C6: in the degraded-mode output of `fetchAllResponses`, any row whose
parsed timestamp is strictly greater than another row's precedes it: if the
row at position `i` has a strictly greater parsed timestamp than the row at
position `j`, then `i < j`. -/
theorem fetchAllResponses_sorted_desc (remote : RemoteOutcome (List JoinedRow))
    (getTime : String → Int) (st : Store) (us : List User)
    (rs : List ResponseRecord) (hus : parseUsers st = .ok us)
    (hrs : parseResponses st = .ok rs)
    (hfail : ∀ rows, remote ≠ RemoteOutcome.ok rows)
    (res : FetchResult) (st2 : Store)
    (hres : fetchAllResponses remote getTime st = .ok (res, st2))
    (i j : Nat) (hi : i < res.data.length) (hj : j < res.data.length)
    (hgt : getTime ((res.data.get ⟨j, hj⟩).timestamp) <
           getTime ((res.data.get ⟨i, hi⟩).timestamp)) :
    i < j := by
  rw [fetchAllResponses_fallback remote getTime st us rs hus hrs hfail] at hres
  simp only [Except.ok.injEq, Prod.mk.injEq] at hres
  obtain ⟨h1, -⟩ := hres
  subst h1
  have hsorted : List.Sorted (rowLE getTime) (assembleReport getTime us rs) :=
    List.sorted_insertionSort (rowLE getTime) _
  rcases Nat.lt_trichotomy i j with h | h | h
  · exact h
  · subst h
    exact absurd hgt (lt_irrefl _)
  · have hle := hsorted.rel_get_of_lt (a := ⟨j, hj⟩) (b := ⟨i, hi⟩) h
    exact absurd hgt (not_lt.mpr hle)

/-- Witness for C6: on two locally stored responses whose timestamps parse to
3 and 2 (via string length), the row with the greater timestamp sits at
position 0 and the other at position 1. -/
theorem fetchAllResponses_sorted_desc_witness : (0 : Nat) < 1 :=
  fetchAllResponses_sorted_desc RemoteOutcome.netError (fun s => (s.length : Int))
    (Store.setItem emptyStore "sel_responses"
      (StoredVal.responsesVal
        [{ id := 1, user_id := 1, question_id := 1, score := 1, timestamp := "aa" },
         { id := 2, user_id := 1, question_id := 2, score := 2, timestamp := "bbb" }]))
    [] _ rfl rfl (fun _ h => RemoteOutcome.noConfusion h)
    { source := "LOCAL",
      data := assembleReport (fun s => (s.length : Int)) []
        [{ id := 1, user_id := 1, question_id := 1, score := 1, timestamp := "aa" },
         { id := 2, user_id := 1, question_id := 2, score := 2, timestamp := "bbb" }] }
    _ rfl 0 1 (by decide) (by decide) (by decide)

/-- C7: each operation's remote attempt carries its own configured timeout
(1500 ms for profile creation, 800 ms for response submission, 2000 ms for
the admin fetch), and a non-2xx response, a network error, and a
timeout/abort all take exactly the same local fallback path, producing
identical results. -/
theorem uniform_failure_collapse :
    createUserTimeoutMs = 1500 ∧ submitResponseTimeoutMs = 800 ∧
    fetchAllResponsesTimeoutMs = 2000 ∧
    (∀ name avatar grade gender now st,
      createUser name avatar grade gender RemoteOutcome.httpError now st =
        createUser name avatar grade gender RemoteOutcome.netError now st ∧
      createUser name avatar grade gender RemoteOutcome.netError now st =
        createUser name avatar grade gender RemoteOutcome.timedOut now st) ∧
    (∀ userId questionId score t1 ts t2 st,
      submitResponse userId questionId score RemoteOutcome.httpError t1 ts t2 st =
        submitResponse userId questionId score RemoteOutcome.netError t1 ts t2 st ∧
      submitResponse userId questionId score RemoteOutcome.netError t1 ts t2 st =
        submitResponse userId questionId score RemoteOutcome.timedOut t1 ts t2 st) ∧
    (∀ getTime st,
      fetchAllResponses RemoteOutcome.httpError getTime st =
        fetchAllResponses RemoteOutcome.netError getTime st ∧
      fetchAllResponses RemoteOutcome.netError getTime st =
        fetchAllResponses RemoteOutcome.timedOut getTime st) :=
  ⟨rfl, rfl, rfl,
   fun _ _ _ _ _ _ => ⟨rfl, rfl⟩,
   fun _ _ _ _ _ _ _ => ⟨rfl, rfl⟩,
   fun _ _ => ⟨rfl, rfl⟩⟩

/-- C8: `clearLocalData` is idempotent and total — applying it twice yields
the very same store as applying it once, and it leaves both collection keys
absent.  Being a pure total function on stores, it cannot fail, also when
the collections are already absent. -/
theorem clearLocalData_idempotent (st : Store) :
    clearLocalData (clearLocalData st) = clearLocalData st ∧
    clearLocalData st "sel_users" = none ∧
    clearLocalData st "sel_responses" = none := by
  refine ⟨funext fun k => ?_, rfl, rfl⟩
  by_cases h1 : k = "sel_responses"
  · subst h1; rfl
  · by_cases h2 : k = "sel_users"
    · subst h2; rfl
    · simp [clearLocalData, Store.removeItem, h1, h2]

/-- Frame helper: a successful `createUser` call changes no key other than
`sel_users`. -/
theorem createUser_frame (name avatar grade gender : String)
    (remote : RemoteOutcome User) (now : Int) (st : Store) (u : User) (st2 : Store)
    (hres : createUser name avatar grade gender remote now st = .ok (u, st2))
    (k : String) (hk : k ≠ "sel_users") : st2 k = st k := by
  cases remote with
  | ok u2 =>
    injection hres with h
    injection h with h1 h2
    rw [← h2]
  | httpError =>
    cases hu : parseUsers st with
    | error e => simp [createUser, hu] at hres
    | ok us =>
      simp only [createUser, hu] at hres
      injection hres with h
      injection h with h1 h2
      rw [← h2]
      simp [Store.setItem, hk]
  | netError =>
    cases hu : parseUsers st with
    | error e => simp [createUser, hu] at hres
    | ok us =>
      simp only [createUser, hu] at hres
      injection hres with h
      injection h with h1 h2
      rw [← h2]
      simp [Store.setItem, hk]
  | timedOut =>
    cases hu : parseUsers st with
    | error e => simp [createUser, hu] at hres
    | ok us =>
      simp only [createUser, hu] at hres
      injection hres with h
      injection h with h1 h2
      rw [← h2]
      simp [Store.setItem, hk]

/-- Frame helper: a successful `submitResponse` call changes no key other
than `sel_responses`. -/
theorem submitResponse_frame (userId questionId score : Int)
    (remote : RemoteOutcome Ack) (t1 : Int) (ts : String) (t2 : Int) (st : Store)
    (a : Ack) (st2 : Store)
    (hres : submitResponse userId questionId score remote t1 ts t2 st = .ok (a, st2))
    (k : String) (hk : k ≠ "sel_responses") : st2 k = st k := by
  cases remote with
  | ok a2 =>
    injection hres with h
    injection h with h1 h2
    rw [← h2]
  | httpError =>
    cases hr : parseResponses st with
    | error e => simp [submitResponse, hr] at hres
    | ok rs =>
      simp only [submitResponse, hr] at hres
      injection hres with h
      injection h with h1 h2
      rw [← h2]
      simp [Store.setItem, hk]
  | netError =>
    cases hr : parseResponses st with
    | error e => simp [submitResponse, hr] at hres
    | ok rs =>
      simp only [submitResponse, hr] at hres
      injection hres with h
      injection h with h1 h2
      rw [← h2]
      simp [Store.setItem, hk]
  | timedOut =>
    cases hr : parseResponses st with
    | error e => simp [submitResponse, hr] at hres
    | ok rs =>
      simp only [submitResponse, hr] at hres
      injection hres with h
      injection h with h1 h2
      rw [← h2]
      simp [Store.setItem, hk]

/-- Frame helper: a successful `fetchAllResponses` call returns the store
unchanged — it performs no write. -/
theorem fetchAllResponses_frame (remote : RemoteOutcome (List JoinedRow))
    (getTime : String → Int) (st : Store) (res : FetchResult) (st2 : Store)
    (hres : fetchAllResponses remote getTime st = .ok (res, st2)) : st2 = st := by
  cases remote with
  | ok rows =>
    injection hres with h
    injection h with h1 h2
    exact h2.symm
  | httpError =>
    cases hu : parseUsers st with
    | error e => simp [fetchAllResponses, hu] at hres
    | ok us =>
      cases hr : parseResponses st with
      | error e => simp [fetchAllResponses, hu, hr] at hres
      | ok rs =>
        simp only [fetchAllResponses, hu, hr] at hres
        injection hres with h
        injection h with h1 h2
        exact h2.symm
  | netError =>
    cases hu : parseUsers st with
    | error e => simp [fetchAllResponses, hu] at hres
    | ok us =>
      cases hr : parseResponses st with
      | error e => simp [fetchAllResponses, hu, hr] at hres
      | ok rs =>
        simp only [fetchAllResponses, hu, hr] at hres
        injection hres with h
        injection h with h1 h2
        exact h2.symm
  | timedOut =>
    cases hu : parseUsers st with
    | error e => simp [fetchAllResponses, hu] at hres
    | ok us =>
      cases hr : parseResponses st with
      | error e => simp [fetchAllResponses, hu, hr] at hres
      | ok rs =>
        simp only [fetchAllResponses, hu, hr] at hres
        injection hres with h
        injection h with h1 h2
        exact h2.symm

/-- C9: each Gateway operation touches only its own part of local storage —
a successful `createUser` changes at most the `sel_users` key, a successful
`submitResponse` changes at most the `sel_responses` key, `fetchAllResponses`
writes no key at all, and `clearLocalData` removes exactly the two collection
keys and leaves every other key unchanged. -/
theorem gateway_frame_property :
    (∀ name avatar grade gender remote now st u st2,
      createUser name avatar grade gender remote now st = .ok (u, st2) →
      ∀ k, k ≠ "sel_users" → st2 k = st k) ∧
    (∀ userId questionId score remote t1 ts t2 st a st2,
      submitResponse userId questionId score remote t1 ts t2 st = .ok (a, st2) →
      ∀ k, k ≠ "sel_responses" → st2 k = st k) ∧
    (∀ remote getTime st res st2,
      fetchAllResponses remote getTime st = .ok (res, st2) → st2 = st) ∧
    (∀ (st : Store) k, k ≠ "sel_users" → k ≠ "sel_responses" →
      clearLocalData st k = st k) ∧
    (∀ st : Store, clearLocalData st "sel_users" = none ∧
      clearLocalData st "sel_responses" = none) := by
  refine ⟨?_, ?_, ?_, ?_, fun st => ⟨rfl, rfl⟩⟩
  · intro name avatar grade gender remote now st u st2 hres k hk
    exact createUser_frame name avatar grade gender remote now st u st2 hres k hk
  · intro userId questionId score remote t1 ts t2 st a st2 hres k hk
    exact submitResponse_frame userId questionId score remote t1 ts t2 st a st2 hres k hk
  · intro remote getTime st res st2 hres
    exact fetchAllResponses_frame remote getTime st res st2 hres
  · intro st k hk1 hk2
    simp [clearLocalData, Store.removeItem, hk1, hk2]

/-- Witness for C9: all five frame conjuncts instantiated on concrete calls
against the empty store, probed at the unrelated key `"zzz"`. -/
theorem gateway_frame_property_witness :
    Store.setItem emptyStore "sel_users"
        (StoredVal.usersVal
          [{ id := 0, name := "n", avatar := "a", grade := "g", gender := "x" }])
        "zzz" = emptyStore "zzz" ∧
    Store.setItem emptyStore "sel_responses"
        (StoredVal.responsesVal
          [{ id := 0, user_id := 1, question_id := 2, score := 3, timestamp := "T" }])
        "zzz" = emptyStore "zzz" ∧
    emptyStore = emptyStore ∧
    clearLocalData emptyStore "zzz" = emptyStore "zzz" ∧
    (clearLocalData emptyStore "sel_users" = none ∧
      clearLocalData emptyStore "sel_responses" = none) :=
  ⟨gateway_frame_property.1 "n" "a" "g" "x" RemoteOutcome.netError 0 emptyStore
      { id := 0, name := "n", avatar := "a", grade := "g", gender := "x" } _
      rfl "zzz" (by decide),
   gateway_frame_property.2.1 1 2 3 RemoteOutcome.netError 0 "T" 4 emptyStore
      { id := 4, status := "saved_local" } _ rfl "zzz" (by decide),
   gateway_frame_property.2.2.1 RemoteOutcome.netError (fun _ => 0) emptyStore
      { source := "LOCAL", data := [] } emptyStore rfl,
   gateway_frame_property.2.2.2.1 emptyStore "zzz" (by decide) (by decide),
   gateway_frame_property.2.2.2.2 emptyStore⟩

/-- C10: in the fallback of `submitResponse`, the id stored in the persisted
record and the id in the returned acknowledgement come from two separate
`Date.now()` readings: there is an execution, with the clock advancing
between the readings, in which the returned id differs from the id of the
record that was stored. -/
theorem submitResponse_ack_id_mismatch :
    ∃ userId questionId score t1 ts t2 st,
      t1 < t2 ∧
      ∃ a st2 rs2,
        submitResponse userId questionId score RemoteOutcome.netError t1 ts t2 st =
          .ok (a, st2) ∧
        parseResponses st2 = .ok rs2 ∧
        ∃ r2 ∈ rs2, r2.user_id = userId ∧ r2.question_id = questionId ∧
          r2.score = score ∧ a.id ≠ r2.id := by
  refine ⟨1, 2, 3, 0, "T", 1, emptyStore, by decide,
    { id := 1, status := "saved_local" }, _,
    [{ id := 0, user_id := 1, question_id := 2, score := 3, timestamp := "T" }],
    rfl, rfl,
    ⟨{ id := 0, user_id := 1, question_id := 2, score := 3, timestamp := "T" },
     List.mem_singleton_self _, rfl, rfl, rfl, by decide⟩⟩

end KenModel
